import Mathlib

/-!
Verification of the transcript-acquisition cascade and number-grounded
summarization pipeline of `tools/build-yt-tldr.mjs`.

The JavaScript source is shallowly embedded: JS strings are modelled as
Lean `String` / `List Char` (unicode scalar values; the code under study
only manipulates whole characters, never surrogate halves), JS numbers
arising from the numeric-token parser are modelled as exact rationals
(`ℚ`; every literal the pipeline parses is a short decimal, far from any
floating-point boundary used in a comparison), regex scans are modelled
by explicit character scanners implementing the exact backtracking
behaviour of the source regexes, and effectful code (HTTP fetches, the
OpenAI call, spot-price lookups) is modelled by environments supplying
the outcome of each call site, with JS exceptions as `Except Unit`.
-/

namespace YtTldr

/-- JS `\s` character class, restricted to the code points this
development manipulates (ASCII whitespace plus the common Unicode
spaces the source could see; membership of each listed char in JS `\s`
is per ECMA-262). -/
def isJsWs (c : Char) : Bool :=
  c == ' ' || c == '\t' || c == '\n' || c == '\r' || c == '\x0b' || c == '\x0c' ||
  c == '\u00A0' || c == '\uFEFF' || c == '\u2028' || c == '\u2029' || c == '\u3000'

/-- JS `\w` word character (ASCII, as used by `\b` in non-unicode regexes). -/
def isWordChar (c : Char) : Bool :=
  c.isAlpha || c.isDigit || c == '_'

/-- JS `String.prototype.trim` on our character model. -/
def jsTrimL (s : List Char) : List Char :=
  ((s.dropWhile isJsWs).reverse.dropWhile isJsWs).reverse

def jsTrim (s : String) : String := ⟨jsTrimL s.data⟩

/-- Models `replace(/\s+/g, ' ')`: collapse every whitespace run to one space
(fuelled by the input length; a whitespace run consumes at least one
character per step). -/
def wsCollapseGo : Nat → List Char → List Char
  | 0, s => s
  | _, [] => []
  | f + 1, c :: cs =>
    if isJsWs c then ' ' :: wsCollapseGo f (cs.dropWhile isJsWs)
    else c :: wsCollapseGo f cs

def wsCollapseL (s : List Char) : List Char := wsCollapseGo s.length s

def wsCollapse (s : String) : String := ⟨wsCollapseL s.data⟩

/-- JS `String.prototype.slice(0, n)` (code-unit prefix; all sliced
strings in this development are within the character model). -/
def jsSlice (s : String) (n : Nat) : String := ⟨s.data.take n⟩


/-- Digits of a decimal string read as a natural number. -/
def natOfDigits (ds : List Char) : Nat :=
  ds.foldl (fun n c => 10 * n + (c.toNat - 48)) 0

/-- Value of a decimal digit string with at most one `'.'`
(e.g. `"4.25"`, `"5."`, `".5"`), as an exact rational. -/
def decToRat (ds : List Char) : ℚ :=
  let intPart := ds.takeWhile (fun c => c != '.')
  let rest := ds.dropWhile (fun c => c != '.')
  let fracPart := rest.drop 1
  (natOfDigits intPart : ℚ) + (natOfDigits fracPart : ℚ) / ((10 : ℚ) ^ fracPart.length)

/-- Models `NumericToken` (§ NUMERIC VERIFICATION, lines 533-548): raw matched
substring, numeric value scaled for k/M suffixes, percent flag, currency
flag. -/
structure NumericToken where
  raw : List Char
  value : ℚ
  isPercent : Bool
  isUSD : Bool
deriving DecidableEq, Repr

/-- Greedy `take` of at most `n` characters satisfying `p` (models a
greedy bounded quantifier such as `\d{1,3}`). Returns (taken, rest). -/
def takeAtMost (p : Char → Bool) : Nat → List Char → List Char × List Char
  | _, [] => ([], [])
  | 0, s => ([], s)
  | n + 1, c :: cs =>
    if p c then
      let (a, b) := takeAtMost p n cs
      (c :: a, b)
    else ([], c :: cs)

/-- Greedy `(?:,\d{3})*` of the token regex of `parseNumericTokens`
(line 535): zero or more groups of a comma followed by exactly three
digits. -/
def commaGroups : List Char → List Char × List Char
  | ',' :: a :: b :: c :: rest =>
    if a.isDigit && b.isDigit && c.isDigit then
      let (g, r) := commaGroups rest
      (',' :: a :: b :: c :: g, r)
    else ([], ',' :: a :: b :: c :: rest)
  | rest => ([], rest)

/-- Greedy optional `(?:\.\d+)?`: a dot followed by at least one digit,
otherwise nothing. -/
def fracScan : List Char → List Char × List Char
  | '.' :: r =>
    let ds := r.takeWhile Char.isDigit
    if ds.isEmpty then ([], '.' :: r)
    else ('.' :: ds, r.dropWhile Char.isDigit)
  | s => ([], s)

def isSuffixChar (c : Char) : Bool :=
  c == 'k' || c == 'K' || c == 'm' || c == 'M' || c == '%'

/-- One attempted match of the token regex of `parseNumericTokens`
(line 535), `/\$?\s*(\d{1,3}(?:,\d{3})*(?:\.\d+)?|\d+(?:\.\d+)?)\s*([kKmM%])?/`,
at the head of `s`. The second alternative of the capture group is dead
code in the source: it requires a leading digit, and whenever a digit is
present the first alternative already succeeds (its tail quantifiers are
all optional), so only the first alternative is modelled. Returns the
token and the rest of the input. -/
def tryParseTok (s : List Char) : Option (NumericToken × List Char) :=
  let (dol, s1) := match s with
    | '$' :: r => (['$'], r)
    | _ => (([] : List Char), s)
  let ws1 := s1.takeWhile isJsWs
  let s2 := s1.dropWhile isJsWs
  let (d1, s3) := takeAtMost Char.isDigit 3 s2
  if d1.isEmpty then none
  else
    let (cg, s4) := commaGroups s3
    let (fr, s5) := fracScan s4
    let ws2 := s5.takeWhile isJsWs
    let s6 := s5.dropWhile isJsWs
    let (suf, rest) := match s6 with
      | k :: r2 => if isSuffixChar k then ([k], r2) else (([] : List Char), s6)
      | [] => ([], [])
    let raw := dol ++ ws1 ++ d1 ++ cg ++ fr ++ ws2 ++ suf
    let numStr := (d1 ++ cg ++ fr).filter (fun c => c != ',')
    let v0 := decToRat numStr
    let v : ℚ :=
      if suf = ['k'] || suf = ['K'] then v0 * 1000
      else if suf = ['m'] || suf = ['M'] then v0 * 1000000
      else v0
    some ({ raw := raw, value := v, isPercent := suf = ['%'], isUSD := dol = ['$'] }, rest)

/-- The `while ((m = re.exec(s)))` scan of `parseNumericTokens`: try a
match at each position, resuming after each match. Fuelled by the input
length (every match consumes at least one character). -/
def parseNumLoop : Nat → List Char → List NumericToken
  | 0, _ => []
  | _, [] => []
  | f + 1, c :: cs =>
    match tryParseTok (c :: cs) with
    | some (t, rest) => t :: parseNumLoop f rest
    | none => parseNumLoop f cs

/-- Models `parseNumericTokens` (lines 533-548). -/
def parseNumericTokens (s : String) : List NumericToken :=
  parseNumLoop s.data.length s.data

/-- Models `r.replace(/[,\s\$]/g,'').toLowerCase()` (line 558). -/
def normRaw (r : List Char) : List Char :=
  (r.filter (fun c => !(c == ',' || isJsWs c || c == '$'))).map Char.toLower

/-- The per-token match predicate inlined in `appearsInTranscriptHuman`
(lines 556-563): percent flags must agree, then either the normalized
raw texts coincide or the relative difference, measured against
`max 1 |w.value|`, is at most 1%. `w` is the candidate token, `t` a
transcript token. -/
def tokenMatches (w t : NumericToken) : Bool :=
  if w.isPercent != t.isPercent then false
  else if normRaw w.raw == normRaw t.raw then true
  else
    let denom : ℚ := max 1 |w.value|
    decide (|w.value - t.value| / denom ≤ 1 / 100)

/-- Models `appearsInTranscriptHuman` (lines 551-565). -/
def appearsInTranscriptHuman (nRaw transcript : String) : Bool :=
  let want := parseNumericTokens nRaw
  if want.isEmpty then false
  else
    let tnums := parseNumericTokens transcript
    want.all (fun w => tnums.any (fun t => tokenMatches w t))

/-- One attempted match of the scrub/extraction regex
`/\$?\s*\d[\d,]*(?:\.\d+)?\s*[kKmM%]?/` (lines 705, 709, 799, 803) at
the head of `s`. All quantifiers are greedy and the pattern is
backtracking-free (after the mandatory digit every part is optional and
never forces a retry). Returns the matched text and the rest. -/
def tryScrubMatch (s : List Char) : Option (List Char × List Char) :=
  let (dol, s1) := match s with
    | '$' :: r => (['$'], r)
    | _ => (([] : List Char), s)
  let ws1 := s1.takeWhile isJsWs
  let s2 := s1.dropWhile isJsWs
  match s2 with
  | c :: r =>
    if c.isDigit then
      let dc := r.takeWhile (fun d => d.isDigit || d == ',')
      let s3 := r.dropWhile (fun d => d.isDigit || d == ',')
      let (fr, s4) := fracScan s3
      let ws2 := s4.takeWhile isJsWs
      let s5 := s4.dropWhile isJsWs
      match s5 with
      | k :: r2 =>
        if isSuffixChar k then some (dol ++ ws1 ++ c :: (dc ++ fr ++ ws2 ++ [k]), r2)
        else some (dol ++ ws1 ++ c :: (dc ++ fr ++ ws2), k :: r2)
      | [] => some (dol ++ ws1 ++ c :: (dc ++ fr ++ ws2), [])
    else none
  | [] => none

/-- The scan of `String.prototype.replace` with the scrub regex: replace
each (leftmost, non-overlapping) match by `'x'`; on no match at the
current position, emit the character and move on. Fuelled by the input
length (a match always consumes at least its digit). -/
def scrubGo : Nat → List Char → List Char
  | 0, s => s
  | _, [] => []
  | f + 1, c :: cs =>
    match tryScrubMatch (c :: cs) with
    | some (_, rest) => 'x' :: scrubGo f rest
    | none => c :: scrubGo f cs

/-- The `scrub` helper of the grounding filter (lines 709, 803):
`String(s).replace(/\$?\s*\d[\d,]*(?:\.\d+)?\s*[kKmM%]?/g, 'x')`. -/
def scrub (s : String) : String := ⟨scrubGo s.data.length s.data⟩

/-- The scan of `String.prototype.match` with the (global) scrub regex:
collect every matched substring in order. -/
def numScanGo : Nat → List Char → List (List Char)
  | 0, _ => []
  | _, [] => []
  | f + 1, c :: cs =>
    match tryScrubMatch (c :: cs) with
    | some (m, rest) => m :: numScanGo f rest
    | none => numScanGo f cs

/-- Models `serialized.match(/\$?\s*\d[\d,]*(?:\.\d+)?\s*[kKmM%]?/g) || []`
(lines 705, 799): every numeric-looking substring of `s`. -/
def numericSubstrings (s : String) : List String :=
  (numScanGo s.data.length s.data).map String.mk

/- ============================================================
   Summary data model (the JSON shape produced by `summarizeFree`,
   lines 670-702, and required from the model by the prompt of
   `summarizeWithOpenAI`, lines 750-766).
   ============================================================ -/

/-- One `key_levels` entry: `{asset, level, direction, notes}`. -/
structure KeyLevel where
  asset : String
  level : String
  direction : String
  notes : String
deriving DecidableEq, Repr

/-- One `setups` entry: `{name, thesis, trigger, invalidation, targets}`. -/
structure Setup where
  name : String
  thesis : String
  trigger : String
  invalidation : String
  targets : String
deriving DecidableEq, Repr

/-- The long-form summary object (`long`), with the key order of its
construction in `summarizeFree` (lines 695-702); the optional scrub
`note` is appended last when present, as the object spread at lines
711-719 / 807-815 does. -/
structure LongForm where
  context : String
  key_levels : List KeyLevel
  setups : List Setup
  takeaways : List String
  catalysts : List String
  notable_details : List String
  note : Option String := none
deriving DecidableEq, Repr

/-- Models `VideoRef`: the video metadata spread into each summary object. -/
structure VideoRef where
  videoId : String
  title : String
  description : String
  publishedAt : String
  url : String
deriving DecidableEq, Repr

/-- The `long` field of a finished summary: the terminal
`{ skipped: true }` and `{ error: true }` objects, or the full shape. -/
inductive LongShape where
  | skipped
  | errored
  | full (lf : LongForm)
deriving DecidableEq, Repr

/-- A finished summary `{ ...v, bullets, long }`. -/
structure Summary where
  video : VideoRef
  bullets : List String
  long : LongShape
deriving DecidableEq, Repr

/-- Models `JSON.stringify` escaping for the strings this pipeline serializes
(quote and backslash; control-character escapes are outside the model's
character range of interest and do not affect numeric extraction). -/
def jsonEscape (s : String) : String :=
  ⟨s.data.flatMap (fun c =>
    if c = '\\' then ['\\', '\\']
    else if c = '"' then ['\\', '"']
    else [c])⟩

def jstr (s : String) : String := "\"" ++ jsonEscape s ++ "\""

def jarr (xs : List String) : String := "[" ++ String.intercalate "," xs ++ "]"

def serializeKeyLevel (kl : KeyLevel) : String :=
  "\x7b\"asset\":" ++ jstr kl.asset ++ ",\"level\":" ++ jstr kl.level ++
  ",\"direction\":" ++ jstr kl.direction ++ ",\"notes\":" ++ jstr kl.notes ++ "\x7d"

def serializeSetup (su : Setup) : String :=
  "\x7b\"name\":" ++ jstr su.name ++ ",\"thesis\":" ++ jstr su.thesis ++
  ",\"trigger\":" ++ jstr su.trigger ++ ",\"invalidation\":" ++ jstr su.invalidation ++
  ",\"targets\":" ++ jstr su.targets ++ "\x7d"

/-- Models `JSON.stringify(long)` for the long-form object (compact JSON, key
order as constructed; an absent `note` is simply omitted, as
`JSON.stringify` omits absent properties). -/
def serializeLong (long : LongForm) : String :=
  "\x7b\"context\":" ++ jstr long.context ++
  ",\"key_levels\":" ++ jarr (long.key_levels.map serializeKeyLevel) ++
  ",\"setups\":" ++ jarr (long.setups.map serializeSetup) ++
  ",\"takeaways\":" ++ jarr (long.takeaways.map jstr) ++
  ",\"catalysts\":" ++ jarr (long.catalysts.map jstr) ++
  ",\"notable_details\":" ++ jarr (long.notable_details.map jstr) ++
  (match long.note with
   | some n => ",\"note\":" ++ jstr n
   | none => "") ++
  "\x7d"

/-- Models `bullets.join(' ') + ' ' + JSON.stringify(long)` (lines 704, 798):
the summary's whole serialized textual surface. -/
def serializedSurface (bullets : List String) (long : LongForm) : String :=
  String.intercalate " " bullets ++ " " ++ serializeLong long

/-- The redaction note written by the scrub branch (lines 718, 814). -/
def scrubNoteMsg : String := "Numerical details scrubbed — mismatch with transcript."

/-- Models `nums.some(n => !appearsInTranscriptHuman(n, transcript))`
(lines 706, 800): does the serialized surface contain a
numeric-looking substring that does not verify against the
transcript? -/
def hasUnseenNums (bullets : List String) (long : LongForm) (transcript : String) : Bool :=
  (numericSubstrings (serializedSurface bullets long)).any
    (fun n => !appearsInTranscriptHuman n transcript)

/-- The long-form object rebuilt by the scrub branch (lines 711-719 and
807-815): `context`, `takeaways`, `catalysts`, the `level` and `notes`
of each key level, and `notable_details` are scrubbed, the note is set;
all other fields (notably `setups`, and each key level's `asset` and
`direction`) are carried over unchanged by the object spread. -/
def scrubbedLong (long : LongForm) : LongForm :=
  { long with
    context := scrub long.context
    takeaways := long.takeaways.map scrub
    catalysts := long.catalysts.map scrub
    key_levels := long.key_levels.map (fun kl =>
      { kl with level := scrub kl.level, notes := scrub kl.notes })
    notable_details := long.notable_details.map scrub
    note := some scrubNoteMsg }

/-- The grounding/scrubbing filter shared by both summarizers
(lines 704-720 of `summarizeFree` and 798-817 of
`summarizeWithOpenAI`): serialize the candidate, extract every
numeric-looking substring, and scrub everything if any of them fails to
verify against the transcript; otherwise return the candidate
unchanged. -/
def groundSummary (bullets : List String) (long : LongForm) (transcript : String) :
    List String × LongForm :=
  if hasUnseenNums bullets long transcript then
    (bullets.map scrub, scrubbedLong long)
  else
    (bullets, long)

/- ============================================================
   Text Normalizer (lines 65-124)
   ============================================================ -/

/-- The ticker whitelist (lines 65-68). -/
def TICKER_WHITELIST : List String :=
  ["BTC", "ETH", "SOL", "XRP", "ADA", "DOGE", "AVAX", "LINK", "SUI", "SEI",
   "APT", "ARB", "OP", "BONK", "WIF", "SPY", "QQQ", "DXY", "VIX", "USD"]

/-- Models `String.prototype.normalize('NFKC')`, restricted to the code points
this development exercises. Unicode facts embedded (per UAX #15):
NFKC is the identity on ASCII, on the zero-width characters
U+200B/U+200C/U+200D, and on the curly quotes U+2018/U+2019/U+201C/U+201D;
and it canonically composes LATIN SMALL LETTER E (U+0065) followed
immediately by COMBINING ACUTE ACCENT (U+0301) into U+00E9 (composition
is blocked whenever another starter, e.g. a zero-width joiner, stands
between them, which the adjacency requirement of the first equation
captures). Other code points are left unchanged by the model. -/
def nfkcModel : List Char → List Char
  | 'e' :: '́' :: rest => 'é' :: nfkcModel rest
  | c :: rest => c :: nfkcModel rest
  | [] => []

/-- Models `.replace(/​|‌|‍/g, '')` (line 94). -/
def stripZeroWidth (s : List Char) : List Char :=
  s.filter (fun c => !(c == '​' || c == '‌' || c == '‍'))

/-- Models `.replace(/[“”]/g, '"').replace(/[‘’]/g, "'")` (lines 95-96). -/
def foldQuotes (s : List Char) : List Char :=
  s.map (fun c =>
    if c == '“' || c == '”' then '"'
    else if c == '‘' || c == '’' then '\''
    else c)

/-- Models `normalizeTextBasic` (lines 91-99). -/
def normalizeTextBasic (s : String) : String :=
  ⟨jsTrimL (wsCollapseL (foldQuotes (stripZeroWidth (nfkcModel s.data))))⟩

/-- Greedy collection of at most `n` repetitions of `(?:\s+[A-Za-z])`:
each repetition is a nonempty whitespace run followed by one ASCII
letter. Returns the collected (run, letter) pairs and the rest. -/
def grabSpacedReps : Nat → List Char → List (List Char × Char) × List Char
  | 0, s => ([], s)
  | n + 1, s =>
    let ws := s.takeWhile isJsWs
    let r := s.dropWhile isJsWs
    if ws.isEmpty then ([], s)
    else match r with
      | c :: rest =>
        if c.isAlpha then
          let (more, fin) := grabSpacedReps n rest
          ((ws, c) :: more, fin)
        else ([], s)
      | [] => ([], s)

/-- Backtracking on the repetition count of
`\b([A-Za-z])(?:\s+[A-Za-z]){1,4}\b`: with the collected repetitions
given last-first, un-consume repetitions until the trailing `\b` holds
(next character non-word or end of input); at least one repetition must
remain. Returns the kept repetitions (still last-first) and the rest. -/
def shrinkReps : List (List Char × Char) → List Char →
    Option (List (List Char × Char) × List Char)
  | [], _ => none
  | p :: ps, rest =>
    if rest.isEmpty || !isWordChar (rest.headD ' ') then some (p :: ps, rest)
    else shrinkReps ps (p.1 ++ p.2 :: rest)

/-- One attempted match of `/\b([A-Za-z])(?:\s+[A-Za-z]){1,4}\b/`
(line 103) at the head of `s` (the leading `\b` is checked by the
caller). On success returns the replacement
`m.replace(/\s+/g, '').toUpperCase()` and the rest. -/
def tryCollapseMatch (s : List Char) : Option (List Char × List Char) :=
  match s with
  | c :: rest =>
    if c.isAlpha then
      let (reps, fin) := grabSpacedReps 4 rest
      match shrinkReps reps.reverse fin with
      | some (kept, rest2) =>
        some ((c :: (kept.reverse.map Prod.snd)).map Char.toUpper, rest2)
      | none => none
    else none
  | [] => none

/-- The replace scan of `collapseSpacedCaps` (lines 101-104), tracking
whether the previous character of the original string is a word
character (for the leading `\b`). -/
def collapseGo : Nat → Bool → List Char → List Char
  | 0, _, s => s
  | _, _, [] => []
  | f + 1, prevWord, c :: cs =>
    if !prevWord then
      match tryCollapseMatch (c :: cs) with
      | some (rep, rest) => rep ++ collapseGo f true rest
      | none => c :: collapseGo f (isWordChar c) cs
    else c :: collapseGo f (isWordChar c) cs

/-- Models `collapseSpacedCaps` (lines 101-104). -/
def collapseSpacedCaps (s : String) : String :=
  ⟨collapseGo s.data.length false s.data⟩

/-- Elements of the small regex fragment used by the ASR confusion
table: a case-insensitive literal character, an optional exact
character, or `\s*`. -/
inductive PatElem where
  | ch (c : Char)
  | optCh (c : Char)
  | wsStar
deriving DecidableEq, Repr

/-- Deterministic matcher for a pattern-element list (every pattern of
the table is backtracking-free: the greedy choice at an optional or
`\s*` never needs to be revisited, since each is followed by a literal
letter that whitespace or the optional's character cannot satisfy).
Returns the rest after the match. -/
def matchPat : List PatElem → List Char → Option (List Char)
  | [], s => some s
  | PatElem.ch c :: ps, x :: s => if x.toLower == c.toLower then matchPat ps s else none
  | PatElem.ch _ :: _, [] => none
  | PatElem.optCh c :: ps, x :: s => if x == c then matchPat ps s else matchPat ps (x :: s)
  | PatElem.optCh _ :: ps, [] => matchPat ps []
  | PatElem.wsStar :: ps, s => matchPat ps (s.dropWhile isJsWs)

/-- One `(pattern, replacement)` pair of the ASR confusion table. -/
structure AsrRule where
  pat : List PatElem
  rep : List Char

/-- The replace scan for one ASR rule: every rule's pattern is
`\b`-delimited on both sides and matched case-insensitively and
globally; scanning resumes after the matched text of the original
string (whose last character, a letter, supplies the next lookbehind). -/
def ruleGo (rule : AsrRule) : Nat → Bool → List Char → List Char
  | 0, _, s => s
  | _, _, [] => []
  | f + 1, prevWord, c :: cs =>
    if !prevWord then
      match matchPat rule.pat (c :: cs) with
      | some rest =>
        if rest.isEmpty || !isWordChar (rest.headD ' ') then
          rule.rep ++ ruleGo rule f true rest
        else c :: ruleGo rule f (isWordChar c) cs
      | none => c :: ruleGo rule f (isWordChar c) cs
    else c :: ruleGo rule f (isWordChar c) cs

/-- Models `ASR_FIX_MAP` (lines 71-89), in source order. -/
def ASR_FIX_MAP : List AsrRule :=
  [⟨[.ch 's', .wsStar, .ch 'o', .wsStar, .ch 'l'], "SOL".data⟩,
   ⟨[.ch 's', .optCh '-', .ch 'o', .optCh '-', .ch 'l'], "SOL".data⟩,
   ⟨[.ch 's', .ch 'o', .ch 'u', .ch 'l'], "SOL".data⟩,
   ⟨[.ch 's', .ch 'o', .ch 'l', .ch 'e'], "SOL".data⟩,
   ⟨[.ch 's', .ch 'o', .ch 'l', .ch 'd'], "SOL".data⟩,
   ⟨[.ch 'e', .ch 'e', .ch 't', .ch 'h'], "ETH".data⟩,
   ⟨[.ch 'e', .ch 't', .ch 'h', .ch 'h'], "ETH".data⟩,
   ⟨[.ch 'b', .ch 't', .ch 'c'], "BTC".data⟩,
   ⟨[.ch 'e', .ch 't', .ch 'h'], "ETH".data⟩,
   ⟨[.ch 'x', .ch 'r', .ch 'p'], "XRP".data⟩,
   ⟨[.ch 'a', .ch 'v', .ch 'a', .ch 'x'], "AVAX".data⟩,
   ⟨[.ch 'l', .ch 'i', .ch 'n', .ch 'k'], "LINK".data⟩,
   ⟨[.ch 'u', .ch 's', .ch 'd'], "USD".data⟩,
   ⟨[.ch 'd', .ch 'x', .ch 'y'], "DXY".data⟩,
   ⟨[.ch 'v', .ch 'i', .ch 'x'], "VIX".data⟩,
   ⟨[.ch 'q', .optCh ' ', .ch 'q', .optCh ' ', .ch 'q'], "QQQ".data⟩,
   ⟨[.ch 's', .optCh ' ', .ch 'p', .optCh ' ', .ch 'y'], "SPY".data⟩]

/-- Models `fixASRTickers` (lines 106-110): apply the table's rules in order,
each as a global replace over the whole current string. -/
def fixASRTickers (s : String) : String :=
  ⟨ASR_FIX_MAP.foldl (fun acc rule => ruleGo rule acc.length false acc) s.data⟩

/-- Backtracking on the greedy `{2,5}` of `/\b([A-Z]{2,5})\b/`: with the
taken uppercase letters given last-first, un-take letters until the
trailing `\b` holds; at least two letters must remain. Returns the
matched letters (in order) and the rest. -/
def shrinkUpper : List Char → List Char → Option (List Char × List Char)
  | [], _ => none
  | [_], _ => none
  | c :: cs, rest =>
    if rest.isEmpty || !isWordChar (rest.headD ' ') then some ((c :: cs).reverse, rest)
    else shrinkUpper cs (c :: rest)

/-- One attempted match of `/\b([A-Z]{2,5})\b/` (line 114) at the head
of `s` (leading `\b` checked by the caller). -/
def tryUpperMatch (s : List Char) : Option (List Char × List Char) :=
  match s with
  | c :: rest =>
    if c.isUpper then
      let (more, fin) := takeAtMost Char.isUpper 4 rest
      shrinkUpper (c :: more).reverse fin
    else none
  | [] => none

/-- The replace scan of `protectTickersWhitelist` (lines 112-115): the
replacement keeps the captured group when it is whitelisted and the
whole match otherwise — both are the matched text, so the function is
extensionally the identity, and is modelled match-for-match anyway. -/
def protectGo : Nat → Bool → List Char → List Char
  | 0, _, s => s
  | _, _, [] => []
  | f + 1, prevWord, c :: cs =>
    if !prevWord then
      match tryUpperMatch (c :: cs) with
      | some (g1, rest) =>
        (if (TICKER_WHITELIST.map String.data).contains g1 then g1 else g1) ++
          protectGo f true rest
      | none => c :: protectGo f (isWordChar c) cs
    else c :: protectGo f (isWordChar c) cs

/-- Models `protectTickersWhitelist` (lines 112-115). -/
def protectTickersWhitelist (s : String) : String :=
  ⟨protectGo s.data.length false s.data⟩

/-- Models `normalizeForFinance` (lines 118-124). -/
def normalizeForFinance (s : String) : String :=
  protectTickersWhitelist (fixASRTickers (collapseSpacedCaps (normalizeTextBasic s)))

/-- Models `postFix` (lines 652-656): fold any case-insensitive `xxx` run of
three to an em dash, then re-normalize. -/
def xxxGo : Nat → List Char → List Char
  | 0, s => s
  | _, [] => []
  | f + 1, c :: cs =>
    match c :: cs with
    | a :: b :: d :: rest =>
      if (a == 'x' || a == 'X') && (b == 'x' || b == 'X') && (d == 'x' || d == 'X') then
        '—' :: xxxGo f rest
      else a :: xxxGo f (b :: d :: rest)
    | _ => c :: xxxGo f cs

def postFix (s : String) : String :=
  normalizeForFinance ⟨xxxGo s.data.length s.data⟩

/- ============================================================
   Price plausibility filter (lines 567-597)
   ============================================================ -/

/-- Models `String(l.level||'').replace(/[^\d.]/g,'')` (line 592). -/
def cleanLevel (s : String) : List Char :=
  s.data.filter (fun c => c.isDigit || c == '.')

/-- JS `Number(...)` on a string of digits and dots (the only shape
`cleanLevel` can produce): `''` is `0`, more than one dot or no digit
is `NaN` (modelled as `none`), otherwise the decimal value. -/
def jsNumberOfCleaned (s : List Char) : Option ℚ :=
  if s.isEmpty then some 0
  else if s.count '.' > 1 then none
  else if s.all (fun c => c == '.') then none
  else some (decToRat s)

/-- The coingecko id map `MAP` (line 569). -/
def COINGECKO_MAP : List (String × String) :=
  [("BTC", "bitcoin"), ("ETH", "ethereum"), ("SOL", "solana"), ("XRP", "ripple"),
   ("ADA", "cardano"), ("AVAX", "avalanche-2"), ("LINK", "chainlink")]

/-- Environment of `spotPrices`: the `ALLOW_PRICE_LOOKUPS` flag and the
outcome of the coingecko request (a price per requested id, or a thrown
error). -/
structure PriceEnv where
  allow : Bool
  fetchPrices : List String → Except Unit (List (String × ℚ))

/-- Models `new Set(...)` insertion-order deduplication. -/
def uniqFirstGo : List String → List String → List String
  | _, [] => []
  | seen, x :: r =>
    if seen.contains x then uniqFirstGo seen r else x :: uniqFirstGo (x :: seen) r

def uniqFirst (l : List String) : List String := uniqFirstGo [] l

def toUpperStr (s : String) : String := ⟨s.data.map Char.toUpper⟩

/-- Models `spotPrices` (lines 567-583): disabled lookups, an empty symbol
list, no mappable ids, or a failed/thrown request all yield the empty
map; otherwise each returned id is mapped back to its ticker symbol. -/
def spotPrices (env : PriceEnv) (symbols : List String) : List (String × ℚ) :=
  if !env.allow || symbols.isEmpty then []
  else
    let ids := symbols.filterMap (fun s => COINGECKO_MAP.lookup s)
    if ids.isEmpty then []
    else match env.fetchPrices ids with
      | .error _ => []
      | .ok j => j.filterMap (fun kv =>
          match COINGECKO_MAP.find? (fun p => p.2 == kv.1) with
          | some p => some (p.1, kv.2)
          | none => none)

/-- The keep predicate of `filterImplausibleLevels` (lines 590-595):
an entry is kept when its asset is empty, its parsed level is falsy
(`NaN` or `0`), or its asset has no (or a falsy) spot price; otherwise
exactly when `spot/100 < level < spot*100`. -/
def keepLevel (spot : List (String × ℚ)) (l : KeyLevel) : Bool :=
  let a := toUpperStr l.asset
  let p := jsNumberOfCleaned (cleanLevel l.level)
  let sa := spot.lookup a
  if a = "" || p = none || p = some 0 || sa = none || sa = some 0 then true
  else
    match p, sa with
    | some pv, some sv => decide (sv / 100 < pv ∧ pv < sv * 100)
    | _, _ => true

/-- The whitelisted symbols whose spot prices `filterImplausibleLevels`
requests (lines 586-587). -/
def levelSyms (long : LongForm) : List String :=
  (uniqFirst (long.key_levels.map (fun l => toUpperStr l.asset))).filter
    (fun s => TICKER_WHITELIST.contains s)

/-- Models `filterImplausibleLevels` (lines 585-597). -/
def filterImplausibleLevels (env : PriceEnv) (long : LongForm) : LongForm :=
  let spot := spotPrices env (levelSyms long)
  if spot.isEmpty then long
  else { long with key_levels := long.key_levels.filter (keepLevel spot) }

/- ============================================================
   Transcript acquisition cascade (lines 148-427)
   ============================================================ -/

/-- Outcome of one `fetch` call site: a rejected promise (network
error, including a failing `res.text()`), or a response with its `ok`
flag and body text. -/
inductive FetchOutcome where
  | reject
  | resp (ok : Bool) (body : String)
deriving DecidableEq, Repr

/-- One entry of `captionTracks` as used by `pickTrack`
(lines 287-295). `simpleName` stands for
`t.name?.simpleText || t.languageName`. -/
structure CaptionTrack where
  languageCode : String
  simpleName : String
  kind : String
  isTranslatable : Bool
  baseUrl : String
deriving DecidableEq, Repr

/-- Environment of one run of the cascade for one video. Each `fetch`
call site of the watch-page stage has its own outcome. The bodies of
stages 1 and 4 and the per-language library calls are modelled as their
results because the source wraps each of those entirely in its own
`try`/`catch` (lines 175-206, 218-226, 395-409); `whisperMkdir` models
the `fs.mkdir` at line 371, which the source executes before entering
its `try`. The pure JSON-parsing helpers (all of which absorb their own
failures via inner `try`/`catch`, lines 258, 272-275, 309-320, 343-354)
are modelled as total functions on the response body. -/
structure CascadeEnv where
  apiBody : Except Unit String
  libParts : String → Except Unit (List String)
  embedFetch : FetchOutcome
  watchFetch : FetchOutcome
  trackJson3Fetch : FetchOutcome
  trackTtmlFetch : FetchOutcome
  ttJson3Fetch : FetchOutcome
  ttTtmlFetch : FetchOutcome
  getTracks : String → Option (List CaptionTrack)
  isConsent : String → Bool
  json3Parse : String → Option String
  whisperMkdir : Except Unit Unit
  whisperBody : Except Unit String

/-- Models `fetchTranscriptViaYouTubeAPI` (lines 174-207): the whole body is
inside `try`/`catch`, so the stage never throws; on success the srt
text is truncated to 8000 characters, on any failure (or missing
credentials or empty track list, the `.ok ""` cases) the stage yields
the empty string. -/
def fetchTranscriptViaYouTubeAPI (env : CascadeEnv) : String :=
  match env.apiBody with
  | .ok text => jsSlice text 8000
  | .error _ => ""

/-- Models `EN_LANGS` (lines 210-213). -/
def EN_LANGS : List String :=
  ["en", "en-US", "en-GB", "en-UK", "en-CA", "en-AU", "en-NZ", "en-IN", "en-IE",
   "en-SG", "en-PH", "en-ZA", "a.en", "auto", "auto-en"]

/-- The per-language loop of `fetchTranscriptViaLib` (lines 216-229):
a thrown fetch or an empty part list falls through to the next language
variant; a non-empty result is joined with spaces and
whitespace-collapsed. -/
def libLoop (env : CascadeEnv) : List String → String
  | [] => ""
  | lang :: rest =>
    match env.libParts lang with
    | .ok parts =>
      if parts.isEmpty then libLoop env rest
      else wsCollapse (String.intercalate " " parts)
    | .error _ => libLoop env rest

def fetchTranscriptViaLib (env : CascadeEnv) : String := libLoop env EN_LANGS

def containsSub (needle : List Char) : List Char → Bool
  | [] => needle.isEmpty
  | c :: cs => needle.isPrefixOf (c :: cs) || containsSub needle cs

def containsSubCI (needle hay : List Char) : Bool :=
  containsSub (needle.map Char.toLower) (hay.map Char.toLower)

/-- Models `/^en([\-\_][A-Za-z]+)?$/i` (line 287). -/
def isEnglishCode (c : String) : Bool :=
  match c.data.map Char.toLower with
  | ['e', 'n'] => true
  | 'e' :: 'n' :: sep :: rest =>
    (sep == '-' || sep == '_') && !rest.isEmpty && rest.all Char.isAlpha
  | _ => false

/-- Models `/^a\.en$/i.test(c) || /auto/i.test(c)` (line 288). -/
def isAutoEnglish (c : String) : Bool :=
  c.data.map Char.toLower == "a.en".data || containsSubCI "auto".data c.data

/-- Models `/english/i.test(String(s))` (line 289). -/
def isEnglishName (s : String) : Bool := containsSubCI "english".data s.data

/-- Models `pickTrack` (lines 290-295). -/
def pickTrack (arr : List CaptionTrack) : Option CaptionTrack :=
  (arr.find? (fun t => isEnglishCode t.languageCode)).orElse (fun _ =>
  (arr.find? (fun t => isEnglishName t.simpleName)).orElse (fun _ =>
  (arr.find? (fun t =>
      isAutoEnglish t.languageCode || t.kind.data.map Char.toLower == "asr".data)).orElse (fun _ =>
  (arr.find? (fun t => t.isTranslatable)).orElse (fun _ => arr.head?))))

/-- Models `xml.replace(/<[^>]+>/g, ' ')` (lines 327, 356). -/
def stripTagsGo : Nat → List Char → List Char
  | 0, s => s
  | _, [] => []
  | f + 1, c :: cs =>
    if c == '<' then
      let inner := cs.takeWhile (fun d => d != '>')
      let rest := cs.dropWhile (fun d => d != '>')
      match rest with
      | '>' :: r2 =>
        if inner.isEmpty then c :: stripTagsGo f cs
        else ' ' :: stripTagsGo f r2
      | _ => c :: stripTagsGo f cs
    else c :: stripTagsGo f cs

/-- The ttml branch body: strip markup, collapse whitespace, trim. -/
def stripTagsWsTrim (body : String) : String :=
  jsTrim (wsCollapse ⟨stripTagsGo body.data.length body.data⟩)

/-- Models `body.trim().startsWith('\x7b')`. -/
def jsTrimStartsWithBrace (body : String) : Bool :=
  match (jsTrim body).data with
  | '\x7b' :: _ => true
  | _ => false

/-- Models `getTracksFrom` (lines 261-279). A rejected fetch propagates (the
source has no `try` around the fetch); a non-ok response, a consent
interstitial, and an unusable or empty track list all yield `null`. -/
def getTracksFrom (env : CascadeEnv) (fo : FetchOutcome) :
    Except Unit (Option (List CaptionTrack)) :=
  match fo with
  | .reject => .error ()
  | .resp ok body =>
    .ok (if !ok then none
         else if env.isConsent body then none
         else match env.getTracks body with
           | some ts => if ts.isEmpty then none else some ts
           | none => none)

/-- Models `baseUrl.replace(/\\u0026/g, '&')` (line 301). -/
def unescapeAmp : Nat → List Char → List Char
  | 0, s => s
  | _, [] => []
  | f + 1, c :: cs =>
    match c :: cs with
    | '\\' :: 'u' :: '0' :: '0' :: '2' :: '6' :: rest => '&' :: unescapeAmp f rest
    | _ => c :: unescapeAmp f cs

/-- The json3 branch shared verbatim by lines 306-322 and 342-354: on
an ok response whose trimmed body opens a JSON object, parse it and
join the caption events; a parse failure (`try { ... } catch {}`) or an
empty joined text falls through. -/
def json3Attempt (env : CascadeEnv) (ok : Bool) (body : String) : Option String :=
  if ok && jsTrimStartsWithBrace body then
    match env.json3Parse body with
    | some text => if text ≠ "" then some text else none
    | none => none
  else none

/-- The json3-then-ttml attempt against the selected track's caption
url (lines 303-332): `some text` means an early `return text`, `none`
means fall through to the timedtext endpoints. Either fetch may reject,
which propagates. -/
def trackBlock (env : CascadeEnv) : Except Unit (Option String) :=
  match env.trackJson3Fetch with
  | .reject => .error ()
  | .resp ok body =>
    match json3Attempt env ok body with
    | some t => .ok (some t)
    | none =>
      match env.trackTtmlFetch with
      | .reject => .error ()
      | .resp ok2 body2 =>
        if ok2 then
          let text := stripTagsWsTrim body2
          .ok (if text ≠ "" then some text else none)
        else .ok none

/-- The final `for (const fmt of ['json3', 'ttml'])` fallback over the
public timedtext endpoints (lines 336-362), ending in `return ''`
(lines 364-365). Either fetch may reject, which propagates. -/
def timedtextBlock (env : CascadeEnv) : Except Unit String :=
  match env.ttJson3Fetch with
  | .reject => .error ()
  | .resp ok body =>
    match json3Attempt env ok body with
    | some t => .ok t
    | none =>
      match env.ttTtmlFetch with
      | .reject => .error ()
      | .resp ok2 body2 =>
        if ok2 then
          let text := stripTagsWsTrim body2
          .ok (if text ≠ "" then text else "")
        else .ok ""

/-- Models `fetchTranscriptViaWatchPage` (lines 232-366). The url strings
(embed, watch, json3/ttml caption urls) are computed by the source but
do not influence the modelled call-site outcomes. -/
def fetchTranscriptViaWatchPage (env : CascadeEnv) : Except Unit String :=
  match getTracksFrom env env.embedFetch with
  | .error e => .error e
  | .ok t1 =>
    match (match t1 with
           | some ts => Except.ok (some ts)
           | none => getTracksFrom env env.watchFetch) with
    | .error e => .error e
    | .ok tracks =>
      match tracks with
      | some ts =>
        let baseUrl0 := ((pickTrack ts).map CaptionTrack.baseUrl).getD ""
        if baseUrl0 = "" then .ok ""
        else
          let _baseUrl := String.mk (unescapeAmp baseUrl0.data.length baseUrl0.data)
          match trackBlock env with
          | .error e => .error e
          | .ok (some t) => .ok t
          | .ok none => timedtextBlock env
      | none => timedtextBlock env

/-- Models `fetchTranscriptViaWhisper` (lines 369-410): the `fs.mkdir` of the
scratch directory (line 371) runs before the `try`, so its failure
propagates; everything afterwards is inside `try`/`catch` (with a
`finally` cleanup that has no observable effect in the model) and
degrades to the empty string. -/
def fetchTranscriptViaWhisper (env : CascadeEnv) : Except Unit String :=
  match env.whisperMkdir with
  | .error _ => .error ()
  | .ok _ =>
    match env.whisperBody with
    | .ok txt => .ok (jsSlice (jsTrim (wsCollapse txt)) 8000)
    | .error _ => .ok ""

def truncNorm (s : String) : String := jsSlice (normalizeForFinance s) 8000

/-- Models `fetchTranscriptText` (lines 413-427): the four stages in fixed
priority order, each attempted only when every earlier stage produced
empty text; a non-empty stage result is finance-normalized and
truncated to 8000 characters; all four empty yields `''`. -/
def fetchTranscriptText (env : CascadeEnv) : Except Unit String :=
  let fromApi := fetchTranscriptViaYouTubeAPI env
  if fromApi ≠ "" then .ok (truncNorm fromApi)
  else
    let fromLib := fetchTranscriptViaLib env
    if fromLib ≠ "" then .ok (truncNorm fromLib)
    else
      match fetchTranscriptViaWatchPage env with
      | .error e => .error e
      | .ok fromWatch =>
        if fromWatch ≠ "" then .ok (truncNorm fromWatch)
        else
          match fetchTranscriptViaWhisper env with
          | .error e => .error e
          | .ok fromWhisper =>
            if fromWhisper ≠ "" then .ok (truncNorm fromWhisper) else .ok ""

/- ============================================================
   Summarization (lines 599-834)
   ============================================================ -/

/-- Models `STOP` (lines 602-604). -/
def STOP : List String :=
  ["a", "an", "and", "are", "as", "at", "be", "by", "for", "from", "has", "have",
   "i", "in", "is", "it", "of", "on", "or", "that", "the", "then", "there",
   "these", "those", "to", "was", "were", "will", "with", "about", "into",
   "over", "after", "before", "than", "not", "so", "just", "like", "you",
   "can", "if", "we", "they", "this", "our"]

/-- Lookahead class `[A-Z0-9"']` of the sentence splitter (line 609). -/
def isSentStart (c : Char) : Bool :=
  c.isUpper || c.isDigit || c == '"' || c == '\''

def isNlCr (c : Char) : Bool := c == '\n' || c == '\r'

def isSentEnd (c : Char) : Bool := c == '.' || c == '!' || c == '?'

/-- The split scan of `tokenizeSentences`'s regex
`/(?<=[\.\!\?])\s+(?=[A-Z0-9"'])|(?:\n|\r)+/g` (line 609): at each
position the first alternative (a whitespace run with sentence-end
lookbehind and capital/digit/quote lookahead) is tried before the
second (a newline run); matched separators are dropped and pieces
collected. `prevEnd` tracks whether the previous character satisfies
the lookbehind. -/
def splitSentGo : Nat → Bool → List Char → List Char → List (List Char)
  | 0, _, acc, s => [acc.reverse ++ s]
  | _, _, acc, [] => [acc.reverse]
  | f + 1, prevEnd, acc, c :: cs =>
    if prevEnd && isJsWs c &&
        (match (c :: cs).dropWhile isJsWs with
         | d :: _ => isSentStart d
         | [] => false) then
      acc.reverse :: splitSentGo f false [] ((c :: cs).dropWhile isJsWs)
    else if isNlCr c then
      acc.reverse :: splitSentGo f false [] ((c :: cs).dropWhile isNlCr)
    else splitSentGo f (isSentEnd c) (c :: acc) cs

/-- Models `tokenizeSentences` (lines 606-612). -/
def tokenizeSentences (text : String) : List String :=
  let collapsed := wsCollapseL text.data
  (((splitSentGo collapsed.length false [] collapsed).map
      (fun p => jsTrim ⟨p⟩)).filter (fun s => s ≠ ""))

/-- Character class `[a-z0-9%\.]` of `tokenizeWords` (line 614), applied
to the lowercased string. -/
def isWordTokChar (c : Char) : Bool :=
  c.isLower || c.isDigit || c == '%' || c == '.'

/-- Maximal runs of characters satisfying `p` (a `match(/[...]+/g)`). -/
def runsOf (p : Char → Bool) : Nat → List Char → List (List Char)
  | 0, _ => []
  | _, [] => []
  | f + 1, c :: cs =>
    if p c then (c :: cs).takeWhile p :: runsOf p f ((c :: cs).dropWhile p)
    else runsOf p f cs

/-- Models `tokenizeWords` (lines 613-615). -/
def tokenizeWords (s : String) : List String :=
  let lowered := s.data.map Char.toLower
  (runsOf isWordTokChar lowered.length lowered).map String.mk

/-- Models `\b` test against the head of the remaining input. -/
def boundaryOk (r : List Char) : Bool :=
  r.isEmpty || !isWordChar (r.headD ' ')

/-- Models `/(\b\d{3,5}\b|\b\d+\.\d+\b)/.test(w)` (line 630), scanning every
position with the lookbehind `\b` tracked in `prevWord`. A digit run of
length outside 3..5 can never satisfy the first alternative (shrinking
the greedy quantifier always leaves a digit at the boundary). -/
def priceShapedGo : Nat → Bool → List Char → Bool
  | 0, _, _ => false
  | _, _, [] => false
  | f + 1, prevWord, c :: cs =>
    let here : Bool :=
      if prevWord then false
      else
        let ds := (c :: cs).takeWhile Char.isDigit
        let rest := (c :: cs).dropWhile Char.isDigit
        let alt1 := 3 ≤ ds.length && ds.length ≤ 5 && boundaryOk rest
        let alt2 :=
          !ds.isEmpty &&
          (match rest with
           | '.' :: r2 =>
             let fs := r2.takeWhile Char.isDigit
             !fs.isEmpty && boundaryOk (r2.dropWhile Char.isDigit)
           | _ => false)
        alt1 || alt2
    here || priceShapedGo f (isWordChar c) cs

def isPriceShaped (w : String) : Bool :=
  priceShapedGo w.data.length false w.data

/-- The term-frequency map of `scoreSentences` (lines 617-623): counts
of non-stopword tokens across all sentences. -/
def tfOf (sentences : List String) : String → Nat :=
  let allW := sentences.flatMap (fun s => (tokenizeWords s).filter (fun w => !STOP.contains w))
  fun w => allW.count w

/-- The per-sentence score of `scoreSentences` (lines 624-636), with the
source's float literals as exact rationals (1.5, 1.0; boosts 1.08,
1.10, 1.05). -/
def scoreSentence (tf : String → Nat) (s : String) : ℚ :=
  let words := tokenizeWords s
  let base : ℚ := words.foldl (fun acc w =>
    acc + (if STOP.contains w then 0 else (tf w : ℚ))
        + (if w.data.any Char.isDigit then 3 / 2 else 0)
        + (if isPriceShaped w then 1 else 0)) 0
  let b1 := if s.data.contains '$' then base * (27 / 25) else base
  let b2 := if TICKER_WHITELIST.any (fun t => containsSub t.data s.data) then
      b1 * (11 / 10) else b1
  if s.length < 140 then b2 * (21 / 20) else b2

def scoreSentences (sentences : List String) : List ℚ :=
  let tf := tfOf sentences
  sentences.map (scoreSentence tf)

/-- Stable insertion for the descending `sort((a,b) => b.sc - a.sc)`
(line 642): a new element goes after every existing element with a
greater-or-equal score (JS `Array.prototype.sort` is stable). -/
def insertDesc (x : ℚ × Nat) : List (ℚ × Nat) → List (ℚ × Nat)
  | [] => [x]
  | y :: l => if x.1 > y.1 then x :: y :: l else y :: insertDesc x l

def sortDescStable (l : List (ℚ × Nat)) : List (ℚ × Nat) :=
  l.foldl (fun acc x => insertDesc x acc) []

def insertAsc (x : Nat) : List Nat → List Nat
  | [] => [x]
  | y :: l => if x ≤ y then x :: y :: l else y :: insertAsc x l

def sortAsc (l : List Nat) : List Nat :=
  l.foldl (fun acc x => insertAsc x acc) []

/-- Models `topKIndices` (lines 639-646). -/
def topKIndices (scores : List ℚ) (k : Nat) : List Nat :=
  sortAsc (((sortDescStable (scores.enum.map (fun p => (p.2, p.1)))).take k).map Prod.snd)

/-- One attempted match of `/\b\d{2,5}(?:\.\d+)?\b/` (line 671) at the
head of `s` (leading `\b` checked by the caller): a digit run of length
2..5, an optional full fraction (kept only when the boundary after it
holds; partial-fraction backtracks always fail on a digit boundary),
and the trailing `\b`. A run longer than 5 can never match here. -/
def tryLevelMatch (s : List Char) : Option (List Char × List Char) :=
  let ds := s.takeWhile Char.isDigit
  let rest := s.dropWhile Char.isDigit
  if ds.length < 2 || 5 < ds.length then none
  else
    match rest with
    | '.' :: r2 =>
      let fs := r2.takeWhile Char.isDigit
      let r3 := r2.dropWhile Char.isDigit
      if !fs.isEmpty && boundaryOk r3 then some (ds ++ '.' :: fs, r3)
      else if boundaryOk rest then some (ds, rest) else none
    | _ => if boundaryOk rest then some (ds, rest) else none

/-- The global scan collecting the level-candidate matches. -/
def levelScanGo : Nat → Bool → List Char → List (List Char)
  | 0, _, _ => []
  | _, _, [] => []
  | f + 1, prevWord, c :: cs =>
    if !prevWord then
      match tryLevelMatch (c :: cs) with
      | some (m, rest) => m :: levelScanGo f true rest
      | none => levelScanGo f (isWordChar c) cs
    else levelScanGo f (isWordChar c) cs

/-- Models `transcript.match(/\b\d{2,5}(?:\.\d+)?\b/g) || []` (line 671). -/
def levelMatches (s : String) : List String :=
  (levelScanGo s.data.length false s.data).map String.mk

/-- Does a `\b`-delimited occurrence of `needle` appear in `s`
(case-sensitive, as in the details regex of line 687)? -/
def wordBoundedGo (needle : List Char) : Nat → Bool → List Char → Bool
  | 0, _, _ => false
  | _, _, [] => false
  | f + 1, prevWord, c :: cs =>
    (!prevWord && needle.isPrefixOf (c :: cs) &&
      boundaryOk ((c :: cs).drop needle.length)) ||
    wordBoundedGo needle f (isWordChar c) cs

def wordBounded (needle : List Char) (s : List Char) : Bool :=
  wordBoundedGo needle s.length false s

/-- Models `/(\bBTC\b|\bETH\b|\bSOL\b|\bSPY\b|\bQQQ\b|\bUSD\b|\bDXY\b|\bVIX\b|\d)/.test(s)`
(line 687). -/
def hasDetailTrigger (s : String) : Bool :=
  s.data.any Char.isDigit ||
  ["BTC", "ETH", "SOL", "SPY", "QQQ", "USD", "DXY", "VIX"].any
    (fun t => wordBounded t.data s.data)

/-- The terminal summary of a missing transcript
(lines 661, 736). -/
def skippedSummary (v : VideoRef) : Summary :=
  ⟨v, ["Transcript unavailable — summary skipped."], .skipped⟩

/-- The terminal summary of a summarization error (line 824). -/
def errorSummary (v : VideoRef) : Summary :=
  ⟨v, ["Summary pending — processing error."], .errored⟩

/-- The key-level asset whitelist mapping (lines 724-729 and 791-796,
identical in both paths): an asset is uppercased after `postFix` and
kept only when whitelisted, else emptied. -/
def mapWhitelistAssets (long : LongForm) : LongForm :=
  { long with key_levels := long.key_levels.map (fun l =>
      let a := toUpperStr (postFix l.asset)
      { l with asset := if TICKER_WHITELIST.contains a then a else "" }) }

/-- Models `summarizeFree` (lines 658-732). -/
def summarizeFree (env : PriceEnv) (v : VideoRef) (transcript : String) : Summary :=
  let sentences := (tokenizeSentences transcript).take 400
  if sentences.isEmpty then skippedSummary v
  else
    let scores := scoreSentences sentences
    let top3Idx := topKIndices scores 3
    let top3 := top3Idx.filterMap (fun i => sentences.get? i)
    let contextIdx := (topKIndices scores (min 1 sentences.length)).headD 0
    let context := (sentences.get? contextIdx).getD ""
    let levelCandidates := uniqFirst ((levelMatches transcript).take 6)
    let key_levels := levelCandidates.map (fun p => KeyLevel.mk "" p "" "")
    let top8 := topKIndices scores 8
    let remainder := top8.filter (fun i => !top3Idx.contains i)
    let takeaways := (remainder.take 4).filterMap (fun i => sentences.get? i)
    let used := top3 ++ takeaways
    let details := ((sentences.filter (fun s => !used.contains s)).filter
        hasDetailTrigger).take 6
    let bullets0 := top3.map (fun s =>
      let t := postFix s
      if t.length > 160 then jsSlice t 157 ++ "…" else t)
    let long0 : LongForm := {
      context := postFix context
      key_levels := key_levels
      setups := []
      takeaways := takeaways.map postFix
      catalysts := []
      notable_details := details.map postFix }
    let ground := groundSummary bullets0 long0 transcript
    let long2 := filterImplausibleLevels env ground.2
    ⟨v, ground.1, .full (mapWhitelistAssets long2)⟩

/-- Environment of `summarizeWithOpenAI`: the outcome of the chat
request combined with the defensive JSON parse (lines 769-784; a
malformed response degrades to empty structures inside the `try`, a
thrown request is the `.error` case), plus the price-lookup
environment. -/
structure AiEnv where
  response : Except Unit (List String × LongForm)
  price : PriceEnv

/-- Models `summarizeWithOpenAI` (lines 734-826). The second component counts
the external text-generation calls made. -/
def summarizeWithOpenAI (env : AiEnv) (v : VideoRef) (transcript : String) :
    Summary × Nat :=
  if transcript = "" ∨ (jsTrim transcript).length < 200 then
    (skippedSummary v, 0)
  else
    match env.response with
    | .error _ => (errorSummary v, 1)
    | .ok (tldr0, long0) =>
      let tldr := tldr0.take 3
      let long1 := { long0 with notable_details := long0.notable_details.take 6 }
      let cleanBullets := tldr.map postFix
      let long2 := mapWhitelistAssets
        { long1 with
          context := if long1.context ≠ "" then postFix long1.context else long1.context
          takeaways := long1.takeaways.map postFix
          catalysts := long1.catalysts.map postFix
          notable_details := long1.notable_details.map postFix }
      if hasUnseenNums cleanBullets long2 transcript then
        (⟨v, cleanBullets.map scrub, .full (scrubbedLong long2)⟩, 1)
      else
        (⟨v, cleanBullets, .full (filterImplausibleLevels env.price long2)⟩, 1)

/- ============================================================
   Concrete inputs used by the example instances below
   ============================================================ -/

/-- A long-form object with every field empty. -/
def emptyLong : LongForm := ⟨"", [], [], [], [], [], none⟩

def demoVideo : VideoRef :=
  ⟨"abc123", "Daily Close", "", "2025-06-01", "https://youtu.be/abc123"⟩

/-- A price environment with lookups disabled. -/
def nullPriceEnv : PriceEnv := ⟨false, fun _ => .ok []⟩

def c1Bullets : List String := ["BTC held 108000 and may reach 120000"]
def c1T : String := "BTC tested 108000 support"

def c2Long : LongForm :=
  ⟨"", [], [⟨"BTC breakout", "target 999999", "", "", ""⟩], [], [], [], none⟩
def c2T : String := "BTC tested 108000 support"

def c3Bullets : List String := ["SOL broke 150"]
def c3T : String := "SOL broke above 150 with volume confirmation"

def c6CodeTok : NumericToken := ⟨"100".data, 100, false, false⟩
def c6SpecTok : NumericToken := ⟨"101.01".data, 10101 / 100, false, false⟩

/-- U+0065 U+200D U+0301: a letter, a zero-width joiner, a combining
acute accent. -/
def zwInput : String := "e\u200D\u0301"

def c8Env : AiEnv := ⟨.ok ([], emptyLong), nullPriceEnv⟩

def c9Env : PriceEnv := ⟨true, fun _ => .ok [("bitcoin", 100)]⟩
def c9Long : LongForm := ⟨"", [⟨"BTC", "0", "support", ""⟩], [], [], [], [], none⟩
def c9PairLong : LongForm :=
  ⟨"", [⟨"BTC", "0.5", "", ""⟩, ⟨"BTC", "50", "", ""⟩], [], [], [], [], none⟩

def c10Bullets : List String := ["ETH may reach 5000 by 9 pm"]
def c10Long : LongForm :=
  ⟨"momentum builds above 2,400", [⟨"", "4000", "support", "retest of 3800"⟩], [],
   ["watch 4200 closely"], ["CPI at 8:30"], ["RSI sits at 77"], none⟩
def c10T : String := "ETH is at 3000 today"

/-- A cascade environment whose first two stages yield nothing and
whose watch-page stage's very first `fetch` (the embed page) rejects. -/
def rejectEnv : CascadeEnv :=
  ⟨.ok "", fun _ => .ok [], .reject, .reject, .reject, .reject, .reject, .reject,
   fun _ => none, fun _ => false, fun _ => none, .ok (), .ok ""⟩

/-- A cascade environment where every fetch resolves (with nothing
useful), every stage yields empty text. -/
def benignEnv : CascadeEnv :=
  ⟨.ok "", fun _ => .ok [], .resp false "", .resp false "", .resp false "",
   .resp false "", .resp false "", .resp false "",
   fun _ => none, fun _ => false, fun _ => none, .ok (), .ok ""⟩

def stage3Track : CaptionTrack := ⟨"en", "English", "asr", true, "http://ct"⟩

/-- A cascade environment where stages 1 and 2 yield nothing and the
watch-page stage succeeds through the embed page and the json3 caption
format. -/
def c5Env : CascadeEnv :=
  ⟨.ok "", fun _ => .ok [], .resp true "page", .resp false "",
   .resp true "\x7b j", .resp false "", .resp false "", .resp false "",
   fun _ => some [stage3Track], fun _ => false,
   fun _ => some "SOL broke above 150 with volume confirmation", .ok (), .ok ""⟩

/- ============================================================
   Supporting lemmas
   ============================================================ -/

theorem fracScan_append (s : List Char) : (fracScan s).1 ++ (fracScan s).2 = s := by
  unfold fracScan
  split
  · rename_i r
    by_cases h : (r.takeWhile Char.isDigit).isEmpty
    · simp [h]
    · simp [h, List.takeWhile_append_dropWhile]
  · rfl

/-- A successful scrub-regex match splits the input, and the matched
text is nonempty. -/
theorem tryScrubMatch_spec (s m rest : List Char) (h : tryScrubMatch s = some (m, rest)) :
    m ++ rest = s ∧ m ≠ [] := by
  unfold tryScrubMatch at h
  split at h
  rename_i pair dol s1 hdol
  have hds : dol ++ s1 = s := by
    split at hdol
    · rename_i r; injection hdol with h1 h2; subst h1; subst h2; rfl
    · injection hdol with h1 h2; subst h1; subst h2; rfl
  simp only [] at h
  split at h
  · rename_i c r hs2
    split at h
    · rename_i hc
      split at h
      · rename_i k r2 hs5
        split at h
        · injection h with h'
          injection h' with h1 h2
          subst h1; subst h2
          refine ⟨?_, by simp⟩
          conv_rhs => rw [← hds, ← List.takeWhile_append_dropWhile isJsWs s1,
            hs2, ← List.takeWhile_append_dropWhile (fun d => d.isDigit || d == ',') r,
            ← fracScan_append (List.dropWhile (fun d => d.isDigit || d == ',') r),
            ← List.takeWhile_append_dropWhile isJsWs
              (fracScan (List.dropWhile (fun d => d.isDigit || d == ',') r)).2,
            hs5]
          simp [List.append_assoc]
        · injection h with h'
          injection h' with h1 h2
          subst h1; subst h2
          refine ⟨?_, by simp⟩
          conv_rhs => rw [← hds, ← List.takeWhile_append_dropWhile isJsWs s1,
            hs2, ← List.takeWhile_append_dropWhile (fun d => d.isDigit || d == ',') r,
            ← fracScan_append (List.dropWhile (fun d => d.isDigit || d == ',') r),
            ← List.takeWhile_append_dropWhile isJsWs
              (fracScan (List.dropWhile (fun d => d.isDigit || d == ',') r)).2,
            hs5]
          simp [List.append_assoc]
      · rename_i hs5
        injection h with h'
        injection h' with h1 h2
        subst h1; subst h2
        refine ⟨?_, by simp⟩
        conv_rhs => rw [← hds, ← List.takeWhile_append_dropWhile isJsWs s1,
          hs2, ← List.takeWhile_append_dropWhile (fun d => d.isDigit || d == ',') r,
          ← fracScan_append (List.dropWhile (fun d => d.isDigit || d == ',') r),
          ← List.takeWhile_append_dropWhile isJsWs
            (fracScan (List.dropWhile (fun d => d.isDigit || d == ',') r)).2,
          hs5]
        simp [List.append_assoc]
    · simp at h
  · simp at h

/-- A position where the scrub regex does not match cannot start with a
digit (a digit always begins a match). -/
theorem tryScrubMatch_none_head (c : Char) (cs : List Char)
    (h : tryScrubMatch (c :: cs) = none) : c.isDigit = false := by
  by_contra hne
  have hd : c.isDigit = true := by revert hne; cases c.isDigit <;> simp
  have hnd : ¬(c = '$') := by intro e; rw [e] at hd; exact absurd hd (by decide)
  have hnw : isJsWs c = false := by
    by_contra hw
    have hw' : isJsWs c = true := by revert hw; cases isJsWs c <;> simp
    unfold isJsWs at hw'
    simp only [Bool.or_eq_true, beq_iff_eq] at hw'
    rcases hw' with (((((((((e | e) | e) | e) | e) | e) | e) | e) | e) | e) | e <;>
      (subst e; exact absurd hd (by decide))
  unfold tryScrubMatch at h
  split at h
  rename_i pair dol s1 hdol
  have hds1 : s1 = c :: cs := by
    split at hdol
    · rename_i r heqr
      injection heqr with e1 _
      exact absurd e1 hnd
    · injection hdol with h1 h2; exact h2.symm
  subst hds1
  simp only [] at h
  simp only [List.dropWhile_cons, hnw, Bool.false_eq_true, if_false, hd, if_true] at h
  split at h
  · split at h <;> exact Option.noConfusion h
  · exact Option.noConfusion h

/-- Every character of a scrubbed string is a non-digit: the scrub
regex consumes every digit occurrence. -/
theorem scrubGo_digit_free :
    ∀ (f : Nat) (s : List Char), s.length ≤ f →
      ∀ c ∈ scrubGo f s, c.isDigit = false := by
  intro f
  induction f with
  | zero =>
    intro s hs c hc
    have hnil : s = [] := List.length_eq_zero.mp (Nat.le_zero.mp hs)
    subst hnil
    simp [scrubGo] at hc
  | succ f ih =>
    intro s hs c hc
    cases s with
    | nil => simp [scrubGo] at hc
    | cons a as =>
      rw [scrubGo] at hc
      cases htm : tryScrubMatch (a :: as) with
      | some pr =>
        obtain ⟨m0, rest⟩ := pr
        rw [htm] at hc
        simp only [List.mem_cons] at hc
        rcases hc with rfl | hc2
        · decide
        · have hspec := tryScrubMatch_spec _ _ _ htm
          have hlen : rest.length ≤ f := by
            have hleq := congrArg List.length hspec.1
            rw [List.length_append] at hleq
            have hm : 1 ≤ m0.length := by
              cases hm0 : m0 with
              | nil => exact absurd hm0 hspec.2
              | cons _ _ => simp
            simp only [List.length_cons] at hs hleq
            omega
          exact ih rest hlen c hc2
      | none =>
        rw [htm] at hc
        simp only [List.mem_cons] at hc
        rcases hc with rfl | hc2
        · exact tryScrubMatch_none_head _ _ htm
        · have has : as.length ≤ f := by
            simp only [List.length_cons] at hs
            omega
          exact ih as has c hc2

theorem scrub_digit_free (s : String) : ∀ c ∈ (scrub s).data, c.isDigit = false :=
  scrubGo_digit_free s.data.length s.data (Nat.le_refl _)


/- ============================================================
   Claim theorems
   ============================================================ -/

/-- C1: if any numeric-looking substring extracted from the summary's
serialized surface fails the `appearsInTranscriptHuman` check against
the transcript, the grounding step replaces every numeric-looking
substring in the bullets, context, takeaways, catalysts, key-level
levels and notes, and notable details with the redaction marker (the
whole-field `scrub`, which rewrites every match of the numeric
pattern), including substrings that individually verified, and sets the
note field recording that scrubbing occurred. -/
theorem claim1_ground_scrubs_all_when_any_unverified
    (bullets : List String) (long : LongForm) (t : String)
    (h : ∃ n ∈ numericSubstrings (serializedSurface bullets long),
      appearsInTranscriptHuman n t = false) :
    groundSummary bullets long t =
      (bullets.map scrub,
       { context := scrub long.context
         key_levels := long.key_levels.map (fun kl =>
           { kl with level := scrub kl.level, notes := scrub kl.notes })
         setups := long.setups
         takeaways := long.takeaways.map scrub
         catalysts := long.catalysts.map scrub
         notable_details := long.notable_details.map scrub
         note := some scrubNoteMsg }) := by
  have hu : hasUnseenNums bullets long t = true := by
    rcases h with ⟨n, hn, hf⟩
    unfold hasUnseenNums
    rw [List.any_eq_true]
    exact ⟨n, hn, by rw [hf]; rfl⟩
  unfold groundSummary
  rw [if_pos hu]
  rfl

set_option maxRecDepth 20000 in
/-- C1 witness: the spec's grounding example. Transcript
`"BTC tested 108000 support"`, candidate bullet
`"BTC held 108000 and may reach 120000"`: the `120000` mention fails
to verify, so grounding scrubs everything and sets the note. -/
theorem claim1_witness_btc_example :
    groundSummary c1Bullets emptyLong c1T =
      (c1Bullets.map scrub,
       { context := scrub emptyLong.context
         key_levels := emptyLong.key_levels.map (fun kl =>
           { kl with level := scrub kl.level, notes := scrub kl.notes })
         setups := emptyLong.setups
         takeaways := emptyLong.takeaways.map scrub
         catalysts := emptyLong.catalysts.map scrub
         notable_details := emptyLong.notable_details.map scrub
         note := some scrubNoteMsg }) :=
  claim1_ground_scrubs_all_when_any_unverified c1Bullets emptyLong c1T
    (by with_unfolding_all decide)

set_option maxRecDepth 20000 in
/-- C2 (code bug): after the scrub branch runs, the `setups` entries are
carried over verbatim — here a thesis still reading `"target 999999"` —
so the grounded summary's serialized surface still contains a
numeric-looking substring that fails the transcript check, even though
the scrub note was set. The claimed invariant (every numeric substring
anywhere in the serialized summary, including the setups fields, is
either transcript-backed or redacted) is violated at this input. -/
theorem claim2_setups_numbers_survive_scrub :
    ((groundSummary [] c2Long c2T).2.note = some scrubNoteMsg) ∧
    ((groundSummary [] c2Long c2T).2.setups = c2Long.setups) ∧
    (∃ n ∈ numericSubstrings
        (serializedSurface (groundSummary [] c2Long c2T).1 (groundSummary [] c2Long c2T).2),
      appearsInTranscriptHuman n c2T = false) := by
  have hu : hasUnseenNums [] c2Long c2T = true := by with_unfolding_all decide
  have hg : groundSummary [] c2Long c2T = ([], scrubbedLong c2Long) := by
    unfold groundSummary
    rw [if_pos hu]
    rfl
  have hx : scrubbedLong c2Long =
      ⟨"", [], [⟨"BTC breakout", "target 999999", "", "", ""⟩], [], [], [],
       some scrubNoteMsg⟩ := rfl
  rw [hg, hx]
  refine ⟨rfl, rfl, ?_⟩
  with_unfolding_all decide

/-- C3: if every numeric-looking substring extracted from the summary's
serialized surface verifies against the transcript, the grounding step
returns the summary unchanged in every field, in particular leaving the
note field unset. -/
theorem claim3_ground_pass_through_when_all_verified
    (bullets : List String) (long : LongForm) (t : String)
    (h : ∀ n ∈ numericSubstrings (serializedSurface bullets long),
      appearsInTranscriptHuman n t = true) :
    groundSummary bullets long t = (bullets, long) := by
  have hu : hasUnseenNums bullets long t = false := by
    unfold hasUnseenNums
    rw [List.any_eq_false]
    intro n hn
    rw [h n hn]
    simp
  unfold groundSummary
  rw [if_neg (by rw [hu]; exact Bool.false_ne_true)]

set_option maxRecDepth 20000 in
/-- C3 witness: the spec's pass-through example. Transcript
`"SOL broke above 150 with volume confirmation"`, candidate bullet
`"SOL broke 150"`: everything verifies and the summary passes through
unmodified with no note set. -/
theorem claim3_witness_sol_example :
    groundSummary c3Bullets emptyLong c3T = (c3Bullets, emptyLong) :=
  claim3_ground_pass_through_when_all_verified c3Bullets emptyLong c3T
    (by with_unfolding_all decide)

/-- C6 counterexample: the claim's tolerance is "1% relative tolerance
computed against the larger magnitude of the two values", but the code
divides by `max 1 |candidate|` only. At the token pair
(`"100"`, value 100) and (`"101.01"`, value 101.01) the claimed
condition holds (1.01 / 101.01 ≤ 1%) with percent flags agreeing and
distinct raw texts, yet `tokenMatches` returns false
(1.01 / 100 > 1%), refuting the claimed iff. -/
theorem claim6_counterexample_tolerance_denominator :
    tokenMatches c6CodeTok c6SpecTok = false ∧
    c6CodeTok.isPercent = c6SpecTok.isPercent ∧
    normRaw c6CodeTok.raw ≠ normRaw c6SpecTok.raw ∧
    |c6CodeTok.value - c6SpecTok.value| / max |c6CodeTok.value| |c6SpecTok.value| ≤ 1 / 100 := by
  refine ⟨by with_unfolding_all decide, rfl, by with_unfolding_all decide, ?_⟩
  with_unfolding_all decide

/-- C6 amended: `tokenMatches a b` holds iff the percent flags agree and
either the raw texts coincide after stripping commas, whitespace,
currency symbols and case, or the values differ by at most 1% relative
tolerance computed against `max 1 |a.value|` — the candidate token's
magnitude floored at one, not the larger of the two magnitudes. The
spec's three examples hold as stated. -/
theorem claim6_amended_tokenMatches_spec :
    (∀ a b : NumericToken, tokenMatches a b = true ↔
      (a.isPercent = b.isPercent ∧
        (normRaw a.raw = normRaw b.raw ∨
          |a.value - b.value| / max 1 |a.value| ≤ 1 / 100))) ∧
    tokenMatches ⟨"$4,200".data, 4200, false, true⟩ ⟨"4200".data, 4200, false, false⟩ = true ∧
    tokenMatches ⟨"4200".data, 4200, false, false⟩ ⟨"4300".data, 4300, false, false⟩ = false ∧
    tokenMatches ⟨"50%".data, 50, true, false⟩ ⟨"50".data, 50, false, false⟩ = false := by
  refine ⟨?_, by with_unfolding_all decide, by with_unfolding_all decide,
    by with_unfolding_all decide⟩
  intro a b
  unfold tokenMatches
  by_cases hp : a.isPercent = b.isPercent
  · by_cases hr : normRaw a.raw = normRaw b.raw
    · simp [hp, hr]
    · simp [hp, hr, decide_eq_true_eq]
  · simp [hp]

set_option maxRecDepth 20000 in
/-- C7 (code bug): the normalizer is not idempotent. On the input
U+0065 U+200D U+0301 the first pass strips the zero-width joiner after
unicode normalization, leaving `e` followed by a combining acute accent
(not NFKC-normal); the second pass then composes them into `é`,
changing the string. -/
theorem claim7_normalize_not_idempotent_on_zwj_input :
    normalizeForFinance (normalizeForFinance zwInput) ≠ normalizeForFinance zwInput := by
  with_unfolding_all decide

/-- C8: a transcript whose trimmed length is below 200 characters makes
`summarizeWithOpenAI` return the terminal "Transcript unavailable"
summary with the skipped marker, with zero calls made to the external
text-generation service. -/
theorem claim8_short_transcript_skips_without_call
    (env : AiEnv) (v : VideoRef) (t : String)
    (h : (jsTrim t).length < 200) :
    summarizeWithOpenAI env v t = (skippedSummary v, 0) := by
  unfold summarizeWithOpenAI
  rw [if_pos (Or.inr h)]

/-- C8 witness: a nine-character transcript short-circuits. -/
theorem claim8_witness :
    summarizeWithOpenAI c8Env demoVideo "short one" = (skippedSummary demoVideo, 0) :=
  claim8_short_transcript_skips_without_call c8Env demoVideo "short one" (by decide)

theorem getTracksFrom_ok (env : CascadeEnv) (fo : FetchOutcome) (h : fo ≠ .reject) :
    ∃ x, getTracksFrom env fo = .ok x := by
  cases fo with
  | reject => exact absurd rfl h
  | resp ok body => exact ⟨_, rfl⟩

theorem trackBlock_ok (env : CascadeEnv)
    (h1 : env.trackJson3Fetch ≠ .reject) (h2 : env.trackTtmlFetch ≠ .reject) :
    ∃ x, trackBlock env = .ok x := by
  unfold trackBlock
  cases hj : env.trackJson3Fetch with
  | reject => exact absurd hj h1
  | resp ok body =>
    dsimp only
    cases json3Attempt env ok body with
    | some t => exact ⟨_, rfl⟩
    | none =>
      dsimp only
      cases ht : env.trackTtmlFetch with
      | reject => exact absurd ht h2
      | resp ok2 body2 =>
        dsimp only
        cases ok2 <;> exact ⟨_, rfl⟩

theorem timedtextBlock_ok (env : CascadeEnv)
    (h1 : env.ttJson3Fetch ≠ .reject) (h2 : env.ttTtmlFetch ≠ .reject) :
    ∃ x, timedtextBlock env = .ok x := by
  unfold timedtextBlock
  cases hj : env.ttJson3Fetch with
  | reject => exact absurd hj h1
  | resp ok body =>
    dsimp only
    cases json3Attempt env ok body with
    | some t => exact ⟨_, rfl⟩
    | none =>
      dsimp only
      cases ht : env.ttTtmlFetch with
      | reject => exact absurd ht h2
      | resp ok2 body2 =>
        dsimp only
        cases ok2 <;> exact ⟨_, rfl⟩

theorem fetchTranscriptViaWatchPage_ok (env : CascadeEnv)
    (h1 : env.embedFetch ≠ .reject) (h2 : env.watchFetch ≠ .reject)
    (h3 : env.trackJson3Fetch ≠ .reject) (h4 : env.trackTtmlFetch ≠ .reject)
    (h5 : env.ttJson3Fetch ≠ .reject) (h6 : env.ttTtmlFetch ≠ .reject) :
    ∃ s, fetchTranscriptViaWatchPage env = .ok s := by
  unfold fetchTranscriptViaWatchPage
  obtain ⟨x1, e1⟩ := getTracksFrom_ok env _ h1
  rw [e1]
  dsimp only
  cases x1 with
  | some ts =>
    dsimp only
    by_cases hb : ((pickTrack ts).map CaptionTrack.baseUrl).getD "" = ""
    · rw [if_pos hb]; exact ⟨_, rfl⟩
    · rw [if_neg hb]
      obtain ⟨y, ey⟩ := trackBlock_ok env h3 h4
      rw [ey]
      cases y with
      | some t => exact ⟨_, rfl⟩
      | none => dsimp only; exact timedtextBlock_ok env h5 h6
  | none =>
    dsimp only
    obtain ⟨x2, e2⟩ := getTracksFrom_ok env _ h2
    rw [e2]
    dsimp only
    cases x2 with
    | some ts =>
      dsimp only
      by_cases hb : ((pickTrack ts).map CaptionTrack.baseUrl).getD "" = ""
      · rw [if_pos hb]; exact ⟨_, rfl⟩
      · rw [if_neg hb]
        obtain ⟨y, ey⟩ := trackBlock_ok env h3 h4
        rw [ey]
        cases y with
        | some t => exact ⟨_, rfl⟩
        | none => dsimp only; exact timedtextBlock_ok env h5 h6
    | none => exact timedtextBlock_ok env h5 h6

theorem fetchTranscriptViaWhisper_ok (env : CascadeEnv)
    (h : env.whisperMkdir = .ok ()) :
    ∃ s, fetchTranscriptViaWhisper env = .ok s := by
  unfold fetchTranscriptViaWhisper
  rw [h]
  cases hw : env.whisperBody with
  | ok txt => exact ⟨_, rfl⟩
  | error e => exact ⟨_, rfl⟩

/-- C4 counterexample: with stages 1 and 2 yielding nothing, a rejected
`fetch` of the embed page inside the watch-page scrape stage propagates
out of `fetchTranscriptText` as a thrown error — the stage does not
catch its own network failures, so the cascade neither falls through
nor returns. -/
theorem claim4_counterexample_watch_fetch_reject_throws :
    fetchTranscriptText rejectEnv = .error () := rfl

/-- C4 amended: `fetchTranscriptText` cannot throw provided none of the
six `fetch` call sites of the watch-page stage rejects and the whisper
stage's scratch-directory creation succeeds. Stages 1 and 2 catch all
of their own failures, and within stage 3 non-ok HTTP statuses, consent
interstitials and malformed JSON are handled locally — but a rejected
fetch in stage 3, or a failed `fs.mkdir` in stage 4 (it runs before
that stage's `try`), escapes the cascade. -/
theorem claim4_amended_total_when_fetches_resolve (env : CascadeEnv)
    (h1 : env.embedFetch ≠ .reject) (h2 : env.watchFetch ≠ .reject)
    (h3 : env.trackJson3Fetch ≠ .reject) (h4 : env.trackTtmlFetch ≠ .reject)
    (h5 : env.ttJson3Fetch ≠ .reject) (h6 : env.ttTtmlFetch ≠ .reject)
    (h7 : env.whisperMkdir = .ok ()) :
    ∃ s, fetchTranscriptText env = .ok s := by
  unfold fetchTranscriptText
  by_cases ha : fetchTranscriptViaYouTubeAPI env ≠ ""
  · rw [if_pos ha]; exact ⟨_, rfl⟩
  · rw [if_neg ha]
    by_cases hl : fetchTranscriptViaLib env ≠ ""
    · rw [if_pos hl]; exact ⟨_, rfl⟩
    · rw [if_neg hl]
      obtain ⟨w, ew⟩ := fetchTranscriptViaWatchPage_ok env h1 h2 h3 h4 h5 h6
      rw [ew]
      dsimp only
      by_cases hw : w ≠ ""
      · rw [if_pos hw]; exact ⟨_, rfl⟩
      · rw [if_neg hw]
        obtain ⟨z, ez⟩ := fetchTranscriptViaWhisper_ok env h7
        rw [ez]
        dsimp only
        by_cases hz : z ≠ ""
        · rw [if_pos hz]; exact ⟨_, rfl⟩
        · rw [if_neg hz]; exact ⟨_, rfl⟩

/-- C4 witness for the amended statement: in an environment where every
fetch resolves, the cascade returns without throwing. -/
theorem claim4_witness_benign_env : ∃ s, fetchTranscriptText benignEnv = .ok s :=
  claim4_amended_total_when_fetches_resolve benignEnv (by decide) (by decide)
    (by decide) (by decide) (by decide) (by decide) rfl

/-- C5: the cascade runs its stages in fixed priority order. When
stages 1 and 2 return empty text and the watch-page stage returns
non-empty text `t`, the result is stage 3's text (normalized and
truncated) — stage 3 was attempted and used. When all four stages
return empty, `fetchTranscriptText` returns the empty string, and the
free summarizer entry point given an empty transcript returns the
terminal skipped summary rather than throwing. -/
theorem claim5_cascade_fallthrough_and_skip :
    (∀ (env : CascadeEnv) (t : String),
      fetchTranscriptViaYouTubeAPI env = "" →
      fetchTranscriptViaLib env = "" →
      fetchTranscriptViaWatchPage env = .ok t → t ≠ "" →
      fetchTranscriptText env = .ok (truncNorm t)) ∧
    (∀ env : CascadeEnv,
      fetchTranscriptViaYouTubeAPI env = "" →
      fetchTranscriptViaLib env = "" →
      fetchTranscriptViaWatchPage env = .ok "" →
      fetchTranscriptViaWhisper env = .ok "" →
      fetchTranscriptText env = .ok "") ∧
    (∀ (penv : PriceEnv) (v : VideoRef), summarizeFree penv v "" = skippedSummary v) := by
  refine ⟨?_, ?_, ?_⟩
  · intro env t ha hl hw ht
    unfold fetchTranscriptText
    rw [if_neg (by rw [ha]; exact fun h => h rfl), if_neg (by rw [hl]; exact fun h => h rfl),
      hw]
    dsimp only
    rw [if_pos ht]
  · intro env ha hl hw hz
    unfold fetchTranscriptText
    rw [if_neg (by rw [ha]; exact fun h => h rfl), if_neg (by rw [hl]; exact fun h => h rfl),
      hw]
    dsimp only
    rw [if_neg (by exact fun h => h rfl), hz]
    dsimp only
    rw [if_neg (by exact fun h => h rfl)]
  · intro penv v
    rfl

/-- C5 witness: a concrete environment where stages 1 and 2 yield
nothing and stage 3 succeeds; a concrete environment where every stage
yields empty text; and the skipped summary on an empty transcript. -/
theorem claim5_witness :
    fetchTranscriptText c5Env =
      .ok (truncNorm "SOL broke above 150 with volume confirmation") ∧
    fetchTranscriptText benignEnv = .ok "" ∧
    summarizeFree nullPriceEnv demoVideo "" = skippedSummary demoVideo :=
  ⟨claim5_cascade_fallthrough_and_skip.1 c5Env
      "SOL broke above 150 with volume confirmation" rfl rfl rfl (by decide),
   claim5_cascade_fallthrough_and_skip.2.1 benignEnv rfl rfl rfl rfl,
   claim5_cascade_fallthrough_and_skip.2.2 nullPriceEnv demoVideo⟩

/-- C9 counterexample: with a live spot price of 100 for `BTC`, the
key-level entry with level `"0"` is kept by `filterImplausibleLevels`
even though 0 does not lie strictly between `spot/100` and `spot*100`
(`Number('0')` is falsy, so the code keeps the entry unconditionally),
refuting the claimed iff. -/
theorem claim9_counterexample_zero_level_kept :
    filterImplausibleLevels c9Env c9Long = c9Long ∧
    ¬((100 : ℚ) / 100 < 0 ∧ (0 : ℚ) < 100 * 100) := by
  constructor
  · have hs : spotPrices c9Env (levelSyms c9Long) = [("BTC", (100 : ℚ))] := by
      with_unfolding_all decide
    unfold filterImplausibleLevels
    rw [hs]
    have hk : c9Long.key_levels.filter (keepLevel [("BTC", (100 : ℚ))]) =
        c9Long.key_levels := by
      with_unfolding_all decide
    simp only [List.isEmpty_cons, if_false, Bool.false_eq_true, hk]
  · rintro ⟨h1, _⟩
    norm_num at h1

/-- C9 amended: when the spot-price map comes back empty (lookups
disabled, request failed, or no mappable symbols) the key-levels list
passes through with no entries removed; when it is non-empty, an entry
is kept iff its asset is empty, its parsed level is falsy (`NaN` or
`0`), its asset has no (or a zero) spot price — all kept
unconditionally — or, with a usable level `pv` and spot `sv`, iff
`sv/100 < pv < sv*100`. With spot 100, level `0.5` is dropped and
level `50` is kept, as the spec's example states. -/
theorem claim9_amended_filter_spec :
    (∀ (env : PriceEnv) (long : LongForm),
      spotPrices env (levelSyms long) = [] → filterImplausibleLevels env long = long) ∧
    (∀ (env : PriceEnv) (long : LongForm),
      spotPrices env (levelSyms long) ≠ [] →
      filterImplausibleLevels env long =
        { long with key_levels :=
            long.key_levels.filter (keepLevel (spotPrices env (levelSyms long))) }) ∧
    (∀ (spot : List (String × ℚ)) (l : KeyLevel) (pv sv : ℚ),
      toUpperStr l.asset ≠ "" →
      jsNumberOfCleaned (cleanLevel l.level) = some pv → pv ≠ 0 →
      spot.lookup (toUpperStr l.asset) = some sv → sv ≠ 0 →
      (keepLevel spot l = true ↔ (sv / 100 < pv ∧ pv < sv * 100))) ∧
    keepLevel [("BTC", (100 : ℚ))] ⟨"BTC", "0.5", "", ""⟩ = false ∧
    keepLevel [("BTC", (100 : ℚ))] ⟨"BTC", "50", "", ""⟩ = true := by
  refine ⟨?_, ?_, ?_, by with_unfolding_all decide, by with_unfolding_all decide⟩
  · intro env long hs
    unfold filterImplausibleLevels
    rw [hs]
    rfl
  · intro env long hs
    unfold filterImplausibleLevels
    rw [if_neg (by simp [List.isEmpty_iff, hs])]
  · intro spot l pv sv ha hp hpz hl hsz
    unfold keepLevel
    simp [hp, hl, ha, hpz, hsz, decide_eq_true_eq]

/-- C9 witness for the amended statement: disabled lookups pass the
list through untouched; with spot 100 for BTC the 0.5 level is dropped
and the 50 level kept; and the iff at a usable entry. -/
theorem claim9_witness :
    filterImplausibleLevels nullPriceEnv c9PairLong = c9PairLong ∧
    filterImplausibleLevels c9Env c9PairLong =
      { c9PairLong with key_levels :=
          c9PairLong.key_levels.filter (keepLevel (spotPrices c9Env (levelSyms c9PairLong))) } ∧
    (keepLevel [("BTC", (100 : ℚ))] ⟨"BTC", "50", "", ""⟩ = true ↔
      ((100 : ℚ) / 100 < 50 ∧ (50 : ℚ) < 100 * 100)) :=
  ⟨claim9_amended_filter_spec.1 nullPriceEnv c9PairLong rfl,
   claim9_amended_filter_spec.2.1 c9Env c9PairLong (by with_unfolding_all decide),
   claim9_amended_filter_spec.2.2.1 [("BTC", (100 : ℚ))] ⟨"BTC", "50", "", ""⟩ 50 100
     (by decide) (by with_unfolding_all decide) (by norm_num)
     (by with_unfolding_all decide) (by norm_num)⟩

/-- C10: after the scrub branch of the grounding filter runs, the
rewritten fields — bullets, context, takeaways, catalysts, each
key-level's level and notes, and notable details — contain no digit
characters at all: the scrub regex consumes every digit occurrence, so
redaction of the targeted fields is complete rather than partial. -/
theorem claim10_scrub_branch_digit_free
    (bullets : List String) (long : LongForm) (t : String)
    (h : hasUnseenNums bullets long t = true) :
    (∀ b ∈ (groundSummary bullets long t).1, ∀ c ∈ b.data, c.isDigit = false) ∧
    (∀ c ∈ (groundSummary bullets long t).2.context.data, c.isDigit = false) ∧
    (∀ s ∈ (groundSummary bullets long t).2.takeaways, ∀ c ∈ s.data, c.isDigit = false) ∧
    (∀ s ∈ (groundSummary bullets long t).2.catalysts, ∀ c ∈ s.data, c.isDigit = false) ∧
    (∀ kl ∈ (groundSummary bullets long t).2.key_levels,
      (∀ c ∈ kl.level.data, c.isDigit = false) ∧
      (∀ c ∈ kl.notes.data, c.isDigit = false)) ∧
    (∀ s ∈ (groundSummary bullets long t).2.notable_details, ∀ c ∈ s.data, c.isDigit = false) := by
  have hg : groundSummary bullets long t = (bullets.map scrub, scrubbedLong long) := by
    unfold groundSummary
    rw [if_pos h]
  rw [hg]
  refine ⟨?_, ?_, ?_, ?_, ?_, ?_⟩
  · intro b hb
    rcases List.mem_map.mp hb with ⟨x, _, rfl⟩
    exact scrub_digit_free x
  · exact scrub_digit_free long.context
  · intro s hs
    rcases List.mem_map.mp hs with ⟨x, _, rfl⟩
    exact scrub_digit_free x
  · intro s hs
    rcases List.mem_map.mp hs with ⟨x, _, rfl⟩
    exact scrub_digit_free x
  · intro kl hkl
    rcases List.mem_map.mp hkl with ⟨x, _, rfl⟩
    exact ⟨scrub_digit_free x.level, scrub_digit_free x.notes⟩
  · intro s hs
    rcases List.mem_map.mp hs with ⟨x, _, rfl⟩
    exact scrub_digit_free x

set_option maxRecDepth 20000 in
/-- C10 witness: a concrete summary whose numbers do not all verify
against the transcript; after grounding, every rewritten field is
digit-free. -/
theorem claim10_witness :
    (∀ b ∈ (groundSummary c10Bullets c10Long c10T).1, ∀ c ∈ b.data, c.isDigit = false) ∧
    (∀ c ∈ (groundSummary c10Bullets c10Long c10T).2.context.data, c.isDigit = false) ∧
    (∀ s ∈ (groundSummary c10Bullets c10Long c10T).2.takeaways,
      ∀ c ∈ s.data, c.isDigit = false) ∧
    (∀ s ∈ (groundSummary c10Bullets c10Long c10T).2.catalysts,
      ∀ c ∈ s.data, c.isDigit = false) ∧
    (∀ kl ∈ (groundSummary c10Bullets c10Long c10T).2.key_levels,
      (∀ c ∈ kl.level.data, c.isDigit = false) ∧
      (∀ c ∈ kl.notes.data, c.isDigit = false)) ∧
    (∀ s ∈ (groundSummary c10Bullets c10Long c10T).2.notable_details,
      ∀ c ∈ s.data, c.isDigit = false) :=
  claim10_scrub_branch_digit_free c10Bullets c10Long c10T (by with_unfolding_all decide)

end YtTldr
